import Mathlib

/-!
Verification of the ConnectivityMonitor integration
(custom_components/connectivity_monitor).  The definitions below are a
shallow embedding of `const.py`, `config_flow.py` and `sensor.py`:
pure fragments become Lean functions, the stateful alert engine becomes
explicit state passing over `EntityAlertState`, timestamps become `Nat`
seconds, and Python `None`/falsy-missing values become `Option`.
-/

namespace ConnMon

/-! ## const.py

Module-level names defined by `const.py`, and the names that
`sensor.py` / `config_flow.py` import from it with `from .const import`.
-/

/-- The names bound at module level in `const.py` (lines 1-43). -/
def constDefinedNames : List String :=
  ["DOMAIN", "DEFAULT_PORT", "DEFAULT_PROTOCOL", "DEFAULT_INTERVAL",
   "CONF_HOST", "CONF_PROTOCOL", "CONF_PORT", "CONF_INTERVAL",
   "CONF_TARGETS", "CONF_DNS_SERVER",
   "PROTOCOL_TCP", "PROTOCOL_UDP", "PROTOCOL_ICMP", "PROTOCOL_RPC",
   "PROTOCOL_AD_DC", "PROTOCOLS", "AD_DC_PORTS", "RPC_DEFAULT_PORTS",
   "DEFAULT_PING_TIMEOUT", "DEFAULT_DNS_SERVER"]

/-- The names `sensor.py` imports from `.const` (sensor.py lines 37-56). -/
def sensorConstImports : List String :=
  ["DOMAIN", "CONF_HOST", "CONF_PROTOCOL", "CONF_PORT", "CONF_INTERVAL",
   "CONF_TARGETS", "CONF_DNS_SERVER", "CONF_ALERT_GROUP", "CONF_ALERT_DELAY",
   "DEFAULT_ALERT_DELAY", "PROTOCOL_ICMP", "PROTOCOL_AD_DC", "PROTOCOL_TCP",
   "PROTOCOL_UDP", "DEFAULT_PING_TIMEOUT", "DEFAULT_DNS_SERVER",
   "DEFAULT_INTERVAL", "AD_DC_PORTS"]

/-- The names `config_flow.py` imports from `.const` (config_flow.py lines 19-39). -/
def configFlowConstImports : List String :=
  ["DOMAIN", "DEFAULT_PORT", "DEFAULT_PROTOCOL", "DEFAULT_INTERVAL",
   "DEFAULT_ALERT_DELAY", "CONF_PROTOCOL", "CONF_INTERVAL", "CONF_TARGETS",
   "CONF_DNS_SERVER", "CONF_ALERT_GROUP", "CONF_ALERT_DELAY",
   "DEFAULT_DNS_SERVER", "DEFAULT_ALERT_GROUP", "PROTOCOLS", "PROTOCOL_ICMP",
   "PROTOCOL_AD_DC", "PROTOCOL_TCP", "PROTOCOL_UDP", "AD_DC_PORTS"]

/-- The fixed AD port map `AD_DC_PORTS` from `const.py` (insertion order). -/
def AD_DC_PORTS : List (Nat × String) :=
  [(88, "Kerberos"), (139, "NetBIOS"), (389, "LDAP"), (445, "SMB"),
   (464, "Kerberos Password Change"), (636, "LDAPS"),
   (3268, "Global Catalog"), (3269, "Global Catalog SSL")]

/-! ## Data model

A `Target` is one entry of the `targets` configuration list.  The
Python side stores it as a dict; optional keys become `Option`.
`alert_group = none` models both a missing key and the empty string
(both falsy under the `if not alert_group` / `if first_target.get(...)`
guards).  `alert_delay` is the already-resolved value of
`target.get(CONF_ALERT_DELAY, DEFAULT_ALERT_DELAY)` in minutes
(`DEFAULT_ALERT_DELAY` itself is absent from `const.py`, see the
claim about `const.py`; its intended numeric value never matters to
the properties proved here).
-/

structure Target where
  host : String
  protocol : String
  port : Option Nat
  device_name : Option String
  alert_group : Option String
  alert_delay : Nat
deriving DecidableEq, Repr

/-- Python `target.get("device_name", target[CONF_HOST])`. -/
def Target.deviceName (t : Target) : String :=
  t.device_name.getD t.host

/-- The AD_DC expansion in `config_flow.async_step_finish` (lines 218-224):
for each port of `AD_DC_PORTS`, a copy of the base target with protocol
forced to TCP and that port. -/
def expandADTarget (base : Target) : List Target :=
  AD_DC_PORTS.map fun p => { base with protocol := "TCP", port := some p.1 }

/-! ## Alert engine (`AlertHandler` in sensor.py)

The handler keys three dicts by entity id: `_last_disconnected`,
`_notified` and `_targets`.  Operations on distinct entity ids touch
disjoint keys, so the record of a single watched entity is modelled on
its own: `last_disconnected = none` means the entity id is absent from
`_last_disconnected`, `notified` is `_notified.get(entity_id, False)`,
and `tracked_target = none` means the entity id is absent from
`_targets`.  Timestamps (`datetime.now()`) are `Nat` seconds.
-/

structure EntityAlertState where
  last_disconnected : Option Nat
  notified : Bool
  tracked_target : Option Target
deriving DecidableEq, Repr

/-- The literal list `problem_states` of `async_handle_state_change`
(also the state list checked by `_check_alerts`). -/
def problem_states : List String :=
  ["Disconnected", "Not Connected", "Partially Connected"]

/-- Python `old_state and old_state.state not in problem_states`
(falsy when `old_state` is `None`). -/
def oldWasNonProblem : Option String → Bool
  | some os => decide (os ∉ problem_states)
  | none => false

/-- One notification call `_async_send_notification(group, message)`.
The group is the raw value passed (the sweep passes
`target.get(CONF_ALERT_GROUP)`, an optional value). -/
structure Notification where
  group : Option String
  message : String
deriving DecidableEq, Repr

/-- Python `str.lower()` (all statuses involved are ASCII), acting
characterwise on the string's character list. -/
def pyLower (s : String) : String := ⟨s.data.map Char.toLower⟩

/-- The recovery message of `async_handle_state_change` (line 335). -/
def recoveryMessage (tgt : Target) : String :=
  "✅ Device " ++ tgt.deviceName ++ " (" ++ tgt.host ++
    ") has recovered and is now connected"

/-- The alert message of `_check_alerts` (lines 239-242); `elapsedMin`
is Python `int(elapsed_minutes)`, i.e. `(now - disconnect_since) / 60`
truncated. -/
def alertMessage (tgt : Target) (status : String) (elapsedMin : Nat) : String :=
  "❌ Device " ++ tgt.deviceName ++ " (" ++ tgt.host ++ ") has been " ++
    pyLower status ++ " for " ++ toString elapsedMin ++ " minutes"

/-- `async_handle_state_change` (sensor.py lines 290-342) acting on one
entity's record.  `tgt` and `g` are the `target` and `alert_group`
values captured by the closure in `async_setup_alerts`.  Returns the
new record and the notification calls made. -/
def handleStateChange (tgt : Target) (g : String) (s : EntityAlertState)
    (old_state new_state : Option String) (now : Nat) :
    EntityAlertState × List Notification :=
  match new_state with
  | none => (s, [])
  | some ns =>
    if ns ∈ problem_states then
      if s.last_disconnected = none ∨ oldWasNonProblem old_state = true then
        ({ s with last_disconnected := some now, notified := false }, [])
      else (s, [])
    else if ns = "Connected" then
      if s.last_disconnected ≠ none then
        ({ s with last_disconnected := none, notified := false },
         if s.notified then [⟨some g, recoveryMessage tgt⟩] else [])
      else (s, [])
    else (s, [])

/-- The body of the sweep `_check_alerts` (sensor.py lines 210-245) for
one tracked entity.  `current` is `hass.states.get(entity_id)` at sweep
time.  The Python guard `elapsed_minutes >= alert_delay` with
`elapsed_minutes = (now - disconnect_since).total_seconds() / 60` is,
over seconds, exactly `alert_delay * 60 ≤ now - disconnect_since`. -/
def checkAlerts (s : EntityAlertState) (now : Nat) (current : Option String) :
    EntityAlertState × List Notification :=
  match s.last_disconnected, s.tracked_target with
  | some t0, some tgt =>
    if s.notified then (s, [])
    else if tgt.alert_delay * 60 ≤ now - t0 then
      match current with
      | some st =>
        if st ∈ problem_states then
          ({ s with notified := true },
           [⟨tgt.alert_group, alertMessage tgt st ((now - t0) / 60)⟩])
        else (s, [])
      | none => (s, [])
    else (s, [])
  | _, _ => (s, [])

/-- `async_setup_alerts` (sensor.py lines 267-357) for one entity:
return unchanged if the target has no (truthy) alert group; otherwise
store the target and run the simulated initial state-change event
(`old_state = None`) unless the current state is missing or the HA
`STATE_UNKNOWN` literal `"unknown"`. -/
def setupAlerts (tgt : Target) (s : EntityAlertState)
    (initial : Option String) (now : Nat) :
    EntityAlertState × List Notification :=
  match tgt.alert_group with
  | none => (s, [])
  | some g =>
    let s1 := { s with tracked_target := some tgt }
    match initial with
    | some st =>
      if st ≠ "unknown" then handleStateChange tgt g s1 none (some st) now
      else (s1, [])
    | none => (s1, [])

/-- The target of the spec's end-to-end scenario: host "10.0.0.5",
TCP port 22, alert delay 1 minute, alert group "ops". -/
def sampleTarget : Target :=
  { host := "10.0.0.5", protocol := "TCP", port := some 22,
    device_name := none, alert_group := some "ops", alert_delay := 1 }

/-! ### Event traces for the alert engine

The engine is driven by two inputs: state-change events dispatched to
the registered callback, and the one-minute sweep timer running
`_check_alerts`.  A trace is a list of such inputs for one watched
entity, each carrying the wall-clock time at which it runs.
-/

inductive AlertEvent where
  | change (old_state new_state : Option String) (time : Nat)
  | sweep (time : Nat) (current : Option String)
deriving DecidableEq, Repr

def AlertEvent.time : AlertEvent → Nat
  | .change _ _ t => t
  | .sweep t _ => t

/-- Dispatch one input to the engine: state-change events run the
registered `async_handle_state_change` closure, sweep ticks run the
`_check_alerts` body for this entity. -/
def alertStep (tgt : Target) (g : String) (s : EntityAlertState) :
    AlertEvent → EntityAlertState × List Notification
  | .change o n t => handleStateChange tgt g s o n t
  | .sweep t cur => checkAlerts s t cur

/-- Run a trace of inputs; every emitted notification is paired with
the time of the input that emitted it. -/
def runAlerts (tgt : Target) (g : String) (s : EntityAlertState) :
    List AlertEvent → EntityAlertState × List (Nat × Notification)
  | [] => (s, [])
  | e :: es =>
    let p := alertStep tgt g s e
    let r := runAlerts tgt g p.1 es
    (r.1, p.2.map (fun m => (e.time, m)) ++ r.2)

/-- A sequence of sweep-timer ticks (time, observed state) applied to
one entity's record; this is the only engine code path that runs for
an entity for which `async_setup_alerts` never registered a callback. -/
def runSweeps (s : EntityAlertState) :
    List (Nat × Option String) → EntityAlertState × List Notification
  | [] => (s, [])
  | tc :: tcs =>
    let p := checkAlerts s tc.1 tc.2
    let r := runSweeps p.1 tcs
    (r.1, p.2 ++ r.2)

/-- An input that keeps the entity in a problem state: a state-change
whose new state is a problem state and whose old state is absent or
itself a problem state, or a sweep observing a problem state. -/
def keepsProblem : AlertEvent → Bool
  | .change o n _ =>
      (match n with
       | some ns => decide (ns ∈ problem_states)
       | none => false) &&
      (match o with
       | some os => decide (os ∈ problem_states)
       | none => true)
  | .sweep _ cur =>
      match cur with
      | some st => decide (st ∈ problem_states)
      | none => false

/-! ## Coordinator (`ConnectivityCoordinator._async_update_data`)

The coordinator caches a resolved IP and a MAC across ticks
(`self._resolved_ip`, `self._mac_address`).  One tick consults the
environment: the outcome `_resolve_host` would produce (only read when
no IP is cached), the MAC lookup outcome, and the outcome of the
network probe for each protocol.  Latencies are `ℚ` (Python floats;
the claims only depend on presence/absence of a latency).
-/

structure UpdateResult where
  connected : Bool
  latency : Option ℚ
  resolved_ip : Option String
  mac_address : Option String
deriving DecidableEq, Repr

/-- Outcome of a TCP or UDP connect attempt: either established with a
measured latency in milliseconds, or any exception (connection refused,
timeout, host unreachable) which the `except` block swallows. -/
inductive ConnectOutcome where
  | success (latency_ms : ℚ)
  | failure
deriving DecidableEq, Repr

/-- Outcome of `ping(ip, timeout, 1)`: a reply with round-trip seconds,
`None` (no reply), or an exception which the `except` block swallows. -/
inductive PingOutcome where
  | reply (seconds : ℚ)
  | noReply
  | failure
deriving DecidableEq, Repr

structure TickEnv where
  resolution : Option String
  mac : Option String
  tcp : ConnectOutcome
  udp : ConnectOutcome
  icmp : PingOutcome
deriving DecidableEq, Repr

structure CoordState where
  resolved_ip : Option String
  mac_address : Option String
deriving DecidableEq, Repr

/-- Observable outcome of one tick: the new cached state, the returned
result dict, and whether the resolution / probe branches ran. -/
structure TickOutcome where
  state : CoordState
  result : UpdateResult
  attemptedResolution : Bool
  attemptedProbe : Bool
deriving DecidableEq, Repr

/-- Python `round(x, 2)` (half-even vs half-away rounding is immaterial
to every property proved here: only `none` vs `some` matters). -/
def round2 (q : ℚ) : ℚ := (round (q * 100) : ℤ) / 100

/-- The probe section of `_async_update_data` (lines 403-462), reached
once an IP is available: fill `resolved_ip`, best-effort MAC (cached),
then branch on the protocol; probe failures leave the default
`connected = False, latency = None`. -/
def probePhase (tgt : Target) (st : CoordState) (ip : String)
    (env : TickEnv) (attempted : Bool) : TickOutcome :=
  let st2 : CoordState :=
    match st.mac_address with
    | none => { st with mac_address := env.mac }
    | some _ => st
  let r1 : UpdateResult :=
    { connected := false, latency := none,
      resolved_ip := some ip, mac_address := st2.mac_address }
  if tgt.protocol = "TCP" then
    match env.tcp with
    | .success lat =>
      ⟨st2, { r1 with connected := true, latency := some (round2 lat) },
       attempted, true⟩
    | .failure => ⟨st2, r1, attempted, true⟩
  else if tgt.protocol = "UDP" then
    match env.udp with
    | .success lat =>
      ⟨st2, { r1 with connected := true, latency := some (round2 lat) },
       attempted, true⟩
    | .failure => ⟨st2, r1, attempted, true⟩
  else if tgt.protocol = "ICMP" then
    match env.icmp with
    | .reply secs =>
      ⟨st2, { r1 with connected := true, latency := some (round2 (secs * 1000)) },
       attempted, true⟩
    | .noReply => ⟨st2, r1, attempted, true⟩
    | .failure => ⟨st2, r1, attempted, true⟩
  else
    ⟨st2, r1, attempted, false⟩

/-- `_async_update_data` (sensor.py lines 381-472).  The result dict
starts as all-defaults; if no IP is cached, resolution is attempted and
on failure the defaults are returned without probing. -/
def asyncUpdateData (tgt : Target) (st : CoordState) (env : TickEnv) :
    TickOutcome :=
  match st.resolved_ip with
  | none =>
    match env.resolution with
    | none =>
      ⟨st, { connected := false, latency := none,
             resolved_ip := none, mac_address := none }, true, false⟩
    | some ip => probePhase tgt { st with resolved_ip := some ip } ip env true
  | some ip => probePhase tgt st ip env false

/-- A scheduled sequence of ticks. -/
def runTicks (tgt : Target) (st : CoordState) :
    List TickEnv → CoordState × List TickOutcome
  | [] => (st, [])
  | env :: envs =>
    let o := asyncUpdateData tgt st env
    let r := runTicks tgt o.state envs
    (r.1, o :: r.2)

/-- The probe of this tick fails (for the protocol actually probed):
the TCP/UDP connect raises, or the ping gets no echo reply or raises. -/
def probeFails (tgt : Target) (env : TickEnv) : Prop :=
  (tgt.protocol = "TCP" ∧ env.tcp = .failure) ∨
  (tgt.protocol = "UDP" ∧ env.udp = .failure) ∨
  (tgt.protocol = "ICMP" ∧ (env.icmp = .noReply ∨ env.icmp = .failure))

/-! ## Aggregators (`OverviewSensor` / `ADOverviewSensor.native_value`)

Each sensor walks its coordinator list keeping two flags
`all_connected` (starts `True`) and `any_connected` (starts `False`);
a coordinator counts as connected when `coord.data` is truthy and
`coord.data.get("connected")` is true.  `coord.data = none` models a
coordinator whose update has produced no dict yet.
-/

/-- Python `coord.data and coord.data.get("connected")`. -/
def coordConnected : Option UpdateResult → Bool
  | some r => r.connected
  | none => false

/-- One iteration of the flag loop; the accumulator is
`(all_connected, any_connected)`. -/
def overviewStep (acc : Bool × Bool) (d : Option UpdateResult) : Bool × Bool :=
  if coordConnected d then (acc.1, true) else (false, acc.2)

/-- `OverviewSensor.native_value` (sensor.py lines 726-745). -/
def overviewNativeValue (coords : List (Option UpdateResult)) : String :=
  if coords = [] then "Unknown"
  else
    let flags := coords.foldl overviewStep (true, false)
    if flags.1 then "Connected"
    else if flags.2 then "Partially Connected"
    else "Disconnected"

/-- `ADOverviewSensor.native_value` (sensor.py lines 836-855): same
flag loop, but the empty and none-connected cases read "Not Connected". -/
def adNativeValue (coords : List (Option UpdateResult)) : String :=
  if coords = [] then "Not Connected"
  else
    let flags := coords.foldl overviewStep (true, false)
    if flags.1 then "Connected"
    else if flags.2 then "Partially Connected"
    else "Not Connected"

/-! ## Helper lemmas -/

/-- Characterisation of the overview flag loop: starting from flags
`(a, b)`, the loop ends with `all_connected = a && (all connected)` and
`any_connected = b || (any connected)`. -/
lemma foldl_overviewStep (l : List (Option UpdateResult)) (a b : Bool) :
    l.foldl overviewStep (a, b) =
      (a && l.all coordConnected, b || l.any coordConnected) := by
  induction l generalizing a b with
  | nil => simp
  | cons d l ih =>
    simp only [List.foldl_cons, List.all_cons, List.any_cons, overviewStep]
    by_cases h : coordConnected d = true
    · rw [if_pos h, ih]
      simp [h]
    · rw [if_neg h]
      rw [Bool.not_eq_true] at h
      rw [ih]
      simp [h]

lemma probePhase_preserves (tgt : Target) (st : CoordState) (ip : String)
    (env : TickEnv) (a : Bool) :
    (probePhase tgt st ip env a).attemptedResolution = a ∧
    (probePhase tgt st ip env a).state.resolved_ip = st.resolved_ip := by
  unfold probePhase
  cases htcp : env.tcp <;> cases hudp : env.udp <;> cases hicmp : env.icmp <;>
    cases hmac : st.mac_address <;> split_ifs <;> simp

lemma keepsProblem_change {o n : Option String} {t : Nat}
    (h : keepsProblem (.change o n t) = true) :
    (∃ ns, n = some ns ∧ ns ∈ problem_states) ∧
    (o = none ∨ ∃ os, o = some os ∧ os ∈ problem_states) := by
  cases n with
  | none => simp [keepsProblem] at h
  | some ns =>
    cases o with
    | none =>
      simp only [keepsProblem, Bool.and_true, decide_eq_true_eq] at h
      exact ⟨⟨ns, rfl, h⟩, Or.inl rfl⟩
    | some os =>
      simp only [keepsProblem, Bool.and_eq_true, decide_eq_true_eq] at h
      exact ⟨⟨ns, rfl, h.1⟩, Or.inr ⟨os, rfl, h.2⟩⟩

lemma keepsProblem_sweep {t : Nat} {cur : Option String}
    (h : keepsProblem (.sweep t cur) = true) :
    ∃ st, cur = some st ∧ st ∈ problem_states := by
  cases cur with
  | none => simp [keepsProblem] at h
  | some st =>
    simp only [keepsProblem, decide_eq_true_eq] at h
    exact ⟨st, rfl, h⟩

lemma runAlerts_cons (tgt : Target) (g : String) (s : EntityAlertState)
    (e : AlertEvent) (es : List AlertEvent) :
    runAlerts tgt g s (e :: es) =
      ((runAlerts tgt g (alertStep tgt g s e).1 es).1,
       (alertStep tgt g s e).2.map (fun m => (e.time, m)) ++
         (runAlerts tgt g (alertStep tgt g s e).1 es).2) := rfl

/-- A state-change event that keeps the entity in a problem state does
not touch an existing tracking record and emits nothing. -/
lemma alertStep_change_problem (tgt : Target) (g : String) (t0 : Nat) (b : Bool)
    (tt : Option Target) (o n : Option String) (t : Nat)
    (hk : keepsProblem (.change o n t) = true) :
    alertStep tgt g ⟨some t0, b, tt⟩ (.change o n t) = (⟨some t0, b, tt⟩, []) := by
  obtain ⟨⟨ns, rfl, hns⟩, ho⟩ := keepsProblem_change hk
  simp only [alertStep, handleStateChange]
  rw [if_pos hns, if_neg]
  rintro (hl | hr)
  · exact Option.noConfusion hl
  · rcases ho with rfl | ⟨os, rfl, hos⟩
    · simp [oldWasNonProblem] at hr
    · simp only [oldWasNonProblem, decide_eq_true_eq] at hr
      exact hr hos

/-- A sweep on an already-notified record is a no-op. -/
lemma alertStep_sweep_notified (tgt : Target) (g : String) (t0 : Nat)
    (tt : Target) (t : Nat) (cur : Option String) :
    alertStep tgt g ⟨some t0, true, some tt⟩ (.sweep t cur) =
      (⟨some t0, true, some tt⟩, []) := by
  simp [alertStep, checkAlerts]

/-- A sweep observing a problem state once the delay has elapsed sends
the alert and marks the record notified. -/
lemma alertStep_sweep_fire (tgt : Target) (g : String) (t0 : Nat)
    (tt : Target) (t : Nat) (st : String)
    (hst : st ∈ problem_states) (hel : tt.alert_delay * 60 ≤ t - t0) :
    alertStep tgt g ⟨some t0, false, some tt⟩ (.sweep t (some st)) =
      (⟨some t0, true, some tt⟩,
       [⟨tt.alert_group, alertMessage tt st ((t - t0) / 60)⟩]) := by
  simp [alertStep, checkAlerts, hel, hst]

/-- A sweep before the delay has elapsed is a no-op. -/
lemma alertStep_sweep_early (tgt : Target) (g : String) (t0 : Nat)
    (tt : Target) (t : Nat) (cur : Option String)
    (hel : ¬ tt.alert_delay * 60 ≤ t - t0) :
    alertStep tgt g ⟨some t0, false, some tt⟩ (.sweep t cur) =
      (⟨some t0, false, some tt⟩, []) := by
  simp [alertStep, checkAlerts, hel]

/-- Main debounce induction: starting from a record armed at `t0` with
notified flag `b`, a trace of problem-keeping inputs leaves the record
armed at `t0`, emits notifications only at times past the debounce
threshold, emits at most one (none if `b` was already set), and emits
exactly one iff the trace contains a sweep at or past the threshold. -/
lemma runAlerts_problem (tgt : Target) (g : String) (t0 : Nat) :
    ∀ (events : List AlertEvent) (b : Bool),
      (∀ e ∈ events, keepsProblem e = true) →
      (∀ e ∈ events, t0 ≤ e.time) →
      ∃ b',
        (runAlerts tgt g ⟨some t0, b, some tgt⟩ events).1 =
          ⟨some t0, b', some tgt⟩ ∧
        (∀ p ∈ (runAlerts tgt g ⟨some t0, b, some tgt⟩ events).2,
          t0 + tgt.alert_delay * 60 ≤ p.1) ∧
        (runAlerts tgt g ⟨some t0, b, some tgt⟩ events).2.length =
          (if b then 0 else if b' then 1 else 0) ∧
        (b = true → b' = true) ∧
        (b = false →
          (b' = true ↔ ∃ t cur, AlertEvent.sweep t cur ∈ events ∧
            t0 + tgt.alert_delay * 60 ≤ t)) := by
  intro events
  induction events with
  | nil =>
    intro b _ _
    refine ⟨b, rfl, ?_, ?_, fun h => h, ?_⟩
    · intro p hp
      cases hp
    · cases b <;> simp [runAlerts]
    · intro hb
      subst hb
      simp [runAlerts]
  | cons e es ih =>
    intro b hk ht
    have hke := hk e (List.mem_cons_self e es)
    have hkes := fun x hx => hk x (List.mem_cons_of_mem e hx)
    have hte := ht e (List.mem_cons_self e es)
    have htes := fun x hx => ht x (List.mem_cons_of_mem e hx)
    cases e with
    | change o n t =>
      rw [runAlerts_cons, alertStep_change_problem tgt g t0 b (some tgt) o n t hke]
      obtain ⟨b', hst, houts, hlen, himp, hiff⟩ := ih b hkes htes
      refine ⟨b', hst, ?_, by simpa using hlen, himp, fun hb => ?_⟩
      · intro p hp
        simp only [List.map_nil, List.nil_append] at hp
        exact houts p hp
      · rw [hiff hb]
        constructor
        · rintro ⟨t', cur', hmem, hge⟩
          exact ⟨t', cur', List.mem_cons_of_mem _ hmem, hge⟩
        · rintro ⟨t', cur', hmem, hge⟩
          rcases List.mem_cons.mp hmem with heq | hmem'
          · cases heq
          · exact ⟨t', cur', hmem', hge⟩
    | sweep t cur =>
      obtain ⟨st, rfl, hstp⟩ := keepsProblem_sweep hke
      have htt : t0 ≤ t := hte
      cases b with
      | true =>
        rw [runAlerts_cons, alertStep_sweep_notified]
        obtain ⟨b', hst, houts, hlen, himp, _⟩ := ih true hkes htes
        refine ⟨b', hst, ?_, by simpa using hlen, himp, fun hb => by cases hb⟩
        intro p hp
        simp only [List.map_nil, List.nil_append] at hp
        exact houts p hp
      | false =>
        by_cases hel : tgt.alert_delay * 60 ≤ t - t0
        · rw [runAlerts_cons, alertStep_sweep_fire tgt g t0 tgt t st hstp hel]
          obtain ⟨b', hst, houts, hlen, himp, _⟩ := ih true hkes htes
          have hb' : b' = true := himp rfl
          subst hb'
          have hthr : t0 + tgt.alert_delay * 60 ≤ t := by omega
          have hnil : (runAlerts tgt g ⟨some t0, true, some tgt⟩ es).2 = [] :=
            List.eq_nil_of_length_eq_zero (by simpa using hlen)
          refine ⟨true, hst, ?_, ?_, fun _ => rfl, fun _ => ?_⟩
          · intro p hp
            simp only [hnil, List.map_cons, List.map_nil, List.append_nil,
              List.mem_singleton] at hp
            subst hp
            exact hthr
          · simp [hnil]
          · exact ⟨fun _ => ⟨t, some st, List.mem_cons_self _ _, hthr⟩,
              fun _ => rfl⟩
        · rw [runAlerts_cons, alertStep_sweep_early tgt g t0 tgt t (some st) hel]
          obtain ⟨b', hst, houts, hlen, himp, hiff⟩ := ih false hkes htes
          have hnotyet : ¬ t0 + tgt.alert_delay * 60 ≤ t := by omega
          refine ⟨b', hst, ?_, by simpa using hlen, himp, fun _ => ?_⟩
          · intro p hp
            simp only [List.map_nil, List.nil_append] at hp
            exact houts p hp
          · rw [hiff rfl]
            constructor
            · rintro ⟨t', cur', hmem, hge⟩
              exact ⟨t', cur', List.mem_cons_of_mem _ hmem, hge⟩
            · rintro ⟨t', cur', hmem, hge⟩
              rcases List.mem_cons.mp hmem with heq | hmem'
              · injection heq with h1 h2
                subst h1
                exact absurd hge hnotyet
              · exact ⟨t', cur', hmem', hge⟩

/-! ## Claims -/

/-- C1: the claim asserts that every name `sensor.py` and
`config_flow.py` import from `const.py` is defined there, so the
modules load.  This theorem evaluates the code at the failing inputs:
`CONF_ALERT_GROUP`, `CONF_ALERT_DELAY` and `DEFAULT_ALERT_DELAY` are
imported by `sensor.py`, and `DEFAULT_ALERT_GROUP` by
`config_flow.py`, yet none of them is bound in `const.py`, so
`from .const import ...` raises `ImportError` and the sensor and
config-flow modules are not loadable. -/
theorem const_missing_alert_names :
    ("CONF_ALERT_GROUP" ∈ sensorConstImports ∧
      "CONF_ALERT_GROUP" ∉ constDefinedNames) ∧
    ("CONF_ALERT_DELAY" ∈ sensorConstImports ∧
      "CONF_ALERT_DELAY" ∉ constDefinedNames) ∧
    ("DEFAULT_ALERT_DELAY" ∈ sensorConstImports ∧
      "DEFAULT_ALERT_DELAY" ∉ constDefinedNames) ∧
    ("DEFAULT_ALERT_GROUP" ∈ configFlowConstImports ∧
      "DEFAULT_ALERT_GROUP" ∉ constDefinedNames) := by
  decide

/-- C5: over a non-empty coordinator set, `OverviewSensor.native_value`
is `"Connected"` iff every coordinator's last result counts as
connected, `"Partially Connected"` iff at least one does and at least
one does not, and `"Disconnected"` iff none does. -/
theorem overall_status_trichotomy (coords : List (Option UpdateResult))
    (h : coords ≠ []) :
    (overviewNativeValue coords = "Connected" ↔
      ∀ d ∈ coords, coordConnected d = true) ∧
    (overviewNativeValue coords = "Partially Connected" ↔
      ((∃ d ∈ coords, coordConnected d = true) ∧
       (∃ d ∈ coords, coordConnected d = false))) ∧
    (overviewNativeValue coords = "Disconnected" ↔
      ∀ d ∈ coords, coordConnected d = false) := by
  obtain ⟨d0, hd0⟩ := List.exists_mem_of_ne_nil coords h
  unfold overviewNativeValue
  rw [if_neg h, foldl_overviewStep]
  simp only [Bool.true_and, Bool.false_or]
  by_cases hall : coords.all coordConnected = true
  · rw [if_pos hall]
    rw [List.all_eq_true] at hall
    refine ⟨⟨fun _ => hall, fun _ => rfl⟩, ⟨fun hc => ?_, fun hpc => ?_⟩,
      ⟨fun hc => ?_, fun hdis => ?_⟩⟩
    · exact absurd hc (by decide)
    · obtain ⟨_, ⟨d, hd, hdf⟩⟩ := hpc
      rw [hall d hd] at hdf
      cases hdf
    · exact absurd hc (by decide)
    · have := hdis d0 hd0
      rw [hall d0 hd0] at this
      cases this
  · rw [if_neg hall]
    have hex : ∃ d ∈ coords, coordConnected d = false := by
      by_contra hno
      push_neg at hno
      refine hall (List.all_eq_true.mpr fun d hd => ?_)
      have := hno d hd
      revert this
      cases coordConnected d <;> simp
    by_cases hany : coords.any coordConnected = true
    · rw [if_pos hany]
      rw [List.any_eq_true] at hany
      refine ⟨⟨fun hc => absurd hc (by decide), fun hco => ?_⟩,
        ⟨fun _ => ⟨hany, hex⟩, fun _ => rfl⟩,
        ⟨fun hc => absurd hc (by decide), fun hdis => ?_⟩⟩
      · exact absurd (List.all_eq_true.mpr hco) hall
      · obtain ⟨d, hd, hdc⟩ := hany
        rw [hdis d hd] at hdc
        cases hdc
    · rw [if_neg hany]
      refine ⟨⟨fun hc => absurd hc (by decide), fun hco => ?_⟩,
        ⟨fun hc => absurd hc (by decide), fun hpc => ?_⟩,
        ⟨fun _ => fun d hd => ?_, fun _ => rfl⟩⟩
      · exact absurd (List.all_eq_true.mpr hco) hall
      · obtain ⟨⟨d, hd, hdc⟩, _⟩ := hpc
        exact absurd (List.any_eq_true.mpr ⟨d, hd, hdc⟩) hany
      · by_contra hdc
        rw [Bool.not_eq_false] at hdc
        exact hany (List.any_eq_true.mpr ⟨d, hd, hdc⟩)

/-- C5 witness: the set {connected, connected, disconnected} yields
"Partially Connected". -/
theorem overall_status_trichotomy_witness :
    overviewNativeValue
      [some ⟨true, some 1, some "10.0.0.1", none⟩,
       some ⟨true, some 2, some "10.0.0.1", none⟩,
       some ⟨false, none, some "10.0.0.1", none⟩] = "Partially Connected" :=
  (overall_status_trichotomy _ (by decide)).2.1.mpr
    ⟨⟨some ⟨true, some 1, some "10.0.0.1", none⟩, by simp, rfl⟩,
     ⟨some ⟨false, none, some "10.0.0.1", none⟩, by simp, rfl⟩⟩

/-- C6: the AD composite status is the conjunction over the expanded
ports: `ADOverviewSensor.native_value` reads `"Connected"` iff every
AD coordinator counts as connected, and any failing port forces a
value other than `"Connected"`.  The AD_DC expansion in
`config_flow.async_step_finish` produces one TCP target per port of
`AD_DC_PORTS`, all on the base host. -/
theorem ad_composite_all_ports (coords : List (Option UpdateResult))
    (h : coords ≠ []) (base : Target) :
    (adNativeValue coords = "Connected" ↔
      ∀ d ∈ coords, coordConnected d = true) ∧
    ((∃ d ∈ coords, coordConnected d = false) →
      adNativeValue coords ≠ "Connected") ∧
    ((expandADTarget base).map Target.port =
        AD_DC_PORTS.map (fun p => some p.1) ∧
      ∀ t ∈ expandADTarget base, t.protocol = "TCP" ∧ t.host = base.host) := by
  have hmain : adNativeValue coords = "Connected" ↔
      ∀ d ∈ coords, coordConnected d = true := by
    unfold adNativeValue
    rw [if_neg h, foldl_overviewStep]
    simp only [Bool.true_and, Bool.false_or]
    by_cases hall : coords.all coordConnected = true
    · rw [if_pos hall]
      exact ⟨fun _ => List.all_eq_true.mp hall, fun _ => rfl⟩
    · rw [if_neg hall]
      constructor
      · intro hc
        by_cases hany : coords.any coordConnected = true
        · rw [if_pos hany] at hc
          exact absurd hc (by decide)
        · rw [if_neg hany] at hc
          exact absurd hc (by decide)
      · intro hco
        exact absurd (List.all_eq_true.mpr hco) hall
  refine ⟨hmain, fun ⟨d, hd, hdf⟩ hc => ?_, ?_, ?_⟩
  · have := hmain.mp hc d hd
    rw [this] at hdf
    cases hdf
  · simp [expandADTarget, AD_DC_PORTS]
  · intro t ht
    simp only [expandADTarget, List.mem_map] at ht
    obtain ⟨p, _, rfl⟩ := ht
    exact ⟨rfl, rfl⟩

/-- C6 witness: ports 88 and 389 respond, port 445 times out — the AD
composite value is "Partially Connected", which is not "Connected". -/
theorem ad_composite_all_ports_witness :
    adNativeValue
      [some ⟨true, some 3, some "10.0.0.2", none⟩,
       some ⟨true, some 4, some "10.0.0.2", none⟩,
       some ⟨false, none, some "10.0.0.2", none⟩] ≠ "Connected" :=
  (ad_composite_all_ports _ (by decide)
      ⟨"10.0.0.2", "AD_DC", none, none, none, 5⟩).2.1
    ⟨some ⟨false, none, some "10.0.0.2", none⟩, by simp, rfl⟩

/-- C8: a probe failure (connection refused / timeout / unreachable for
TCP and UDP, no echo reply or ping error for ICMP) never escapes
`_async_update_data` — the function is total in this embedding, the
Python original catches every exception — and the returned result has
`connected = False` and `latency = None`. -/
theorem probe_failure_yields_disconnected (tgt : Target) (st : CoordState)
    (env : TickEnv) (h : probeFails tgt env) :
    (asyncUpdateData tgt st env).result.connected = false ∧
    (asyncUpdateData tgt st env).result.latency = none := by
  unfold asyncUpdateData
  have hprobe : ∀ (st2 : CoordState) (ip : String) (a : Bool),
      (probePhase tgt st2 ip env a).result.connected = false ∧
      (probePhase tgt st2 ip env a).result.latency = none := by
    intro st2 ip a
    unfold probePhase
    rcases h with ⟨hp, htcp⟩ | ⟨hp, hudp⟩ | ⟨hp, hicmp⟩
    · rw [hp, htcp]
      split_ifs <;> simp_all
    · rw [hp, hudp]
      split_ifs <;> simp_all
    · rw [hp]
      rcases hicmp with hi | hi <;> rw [hi] <;> split_ifs <;> simp_all
  cases hres : st.resolved_ip with
  | none =>
    cases henv : env.resolution with
    | none => exact ⟨rfl, rfl⟩
    | some ip => exact hprobe _ ip true
  | some ip => exact hprobe st ip false

/-- C8 witness: a TCP target whose connect times out on the first tick
(with a cached IP) yields connected = false, latency = none. -/
theorem probe_failure_yields_disconnected_witness :
    (asyncUpdateData ⟨"10.0.0.5", "TCP", some 22, none, some "ops", 1⟩
        ⟨some "10.0.0.5", none⟩
        ⟨none, none, .failure, .success 1, .reply 1⟩).result.connected = false ∧
    (asyncUpdateData ⟨"10.0.0.5", "TCP", some 22, none, some "ops", 1⟩
        ⟨some "10.0.0.5", none⟩
        ⟨none, none, .failure, .success 1, .reply 1⟩).result.latency = none :=
  probe_failure_yields_disconnected _ _ _ (Or.inl ⟨rfl, rfl⟩)

/-- C9: hostname resolution is attempted on a tick exactly when no IP
is cached; a cached IP survives the tick; a failed resolution returns
the all-default result (connected = false, latency = none,
resolved_ip = none) without probing and leaves the coordinator
unresolved; and over any sequence of ticks starting from a resolved
coordinator, no further resolution is attempted and the cached IP is
unchanged at the end. -/
theorem resolution_cache_invariant (tgt : Target) :
    (∀ (st : CoordState) (env : TickEnv) (ip : String),
      st.resolved_ip = some ip →
        (asyncUpdateData tgt st env).attemptedResolution = false ∧
        (asyncUpdateData tgt st env).state.resolved_ip = some ip) ∧
    (∀ (st : CoordState) (env : TickEnv),
      st.resolved_ip = none →
        (asyncUpdateData tgt st env).attemptedResolution = true) ∧
    (∀ (st : CoordState) (env : TickEnv),
      st.resolved_ip = none → env.resolution = none →
        (asyncUpdateData tgt st env).attemptedProbe = false ∧
        (asyncUpdateData tgt st env).result =
          ⟨false, none, none, none⟩ ∧
        (asyncUpdateData tgt st env).state.resolved_ip = none) ∧
    (∀ (st : CoordState) (ip : String) (envs : List TickEnv),
      st.resolved_ip = some ip →
        (runTicks tgt st envs).1.resolved_ip = some ip ∧
        ∀ o ∈ (runTicks tgt st envs).2, o.attemptedResolution = false) := by
  have hcached : ∀ (st : CoordState) (env : TickEnv) (ip : String),
      st.resolved_ip = some ip →
        (asyncUpdateData tgt st env).attemptedResolution = false ∧
        (asyncUpdateData tgt st env).state.resolved_ip = some ip := by
    intro st env ip hip
    unfold asyncUpdateData
    rw [hip]
    have := probePhase_preserves tgt st ip env false
    rw [hip] at this
    exact this
  refine ⟨hcached, ?_, ?_, ?_⟩
  · intro st env hnone
    unfold asyncUpdateData
    rw [hnone]
    cases henv : env.resolution with
    | none => rfl
    | some ip =>
      exact (probePhase_preserves tgt { st with resolved_ip := some ip }
        ip env true).1
  · intro st env hnone henv
    unfold asyncUpdateData
    rw [hnone, henv]
    exact ⟨rfl, rfl, hnone⟩
  · intro st ip envs
    induction envs generalizing st with
    | nil => intro hip; exact ⟨hip, by intro o ho; cases ho⟩
    | cons env envs ih =>
      intro hip
      obtain ⟨hatt, hkeep⟩ := hcached st env ip hip
      obtain ⟨hfin, hall⟩ := ih (asyncUpdateData tgt st env).state hkeep
      refine ⟨hfin, ?_⟩
      intro o ho
      simp only [runTicks, List.mem_cons] at ho
      rcases ho with rfl | ho
      · exact hatt
      · exact hall o ho

/-- C9 witness: with a cached IP, a tick does not attempt resolution;
with no cached IP and a failed resolution, the tick returns the
default result without probing. -/
theorem resolution_cache_invariant_witness :
    (asyncUpdateData ⟨"srv", "TCP", some 22, none, none, 1⟩
        ⟨some "10.0.0.9", none⟩
        ⟨some "10.0.0.7", none, .success 1, .failure, .noReply⟩).attemptedResolution
      = false ∧
    (asyncUpdateData ⟨"srv", "TCP", some 22, none, none, 1⟩
        ⟨none, none⟩
        ⟨none, none, .success 1, .failure, .noReply⟩).attemptedProbe = false :=
  ⟨((resolution_cache_invariant _).1 _ _ "10.0.0.9" rfl).1,
   ((resolution_cache_invariant _).2.2.1 _ _ rfl rfl).1⟩

/-- C2: a watched entity with an alert group that enters a problem
state at `t0` gets its record armed at `t0`; along any further trace of
problem-keeping inputs, every notification is emitted at or after
`t0 + delay` (in seconds, `t0 + alert_delay * 60`), at most one is
emitted in total, and exactly one is emitted as soon as the trace
contains a sweep tick at or past that threshold (the engine's
one-minute sweep timer guarantees such a tick in practice). -/
theorem alert_debounce_exactly_once (tgt : Target) (ga g : String) (t0 : Nat)
    (events : List AlertEvent)
    (hga : tgt.alert_group = some ga)
    (hk : ∀ e ∈ events, keepsProblem e = true)
    (ht : ∀ e ∈ events, t0 ≤ e.time) :
    (∀ (o : Option String) (ns : String) (bprev : Bool), ns ∈ problem_states →
      handleStateChange tgt g ⟨none, bprev, some tgt⟩ o (some ns) t0 =
        (⟨some t0, false, some tgt⟩, [])) ∧
    (∀ p ∈ (runAlerts tgt g ⟨some t0, false, some tgt⟩ events).2,
      t0 + tgt.alert_delay * 60 ≤ p.1) ∧
    (runAlerts tgt g ⟨some t0, false, some tgt⟩ events).2.length ≤ 1 ∧
    ((∃ t cur, AlertEvent.sweep t cur ∈ events ∧
        t0 + tgt.alert_delay * 60 ≤ t) →
      (runAlerts tgt g ⟨some t0, false, some tgt⟩ events).2.length = 1) := by
  obtain ⟨b', hst, houts, hlen, _, hiff⟩ := runAlerts_problem tgt g t0 events false hk ht
  refine ⟨?_, houts, ?_, ?_⟩
  · intro o ns bprev hns
    simp [handleStateChange, hns]
  · rw [hlen]
    cases b' <;> simp
  · intro hex
    rw [hlen, if_neg (by simp), if_pos ((hiff rfl).mpr hex)]

/-- C2 witness: delay 5 minutes, disconnect at t=0, problem-keeping
events with sweeps at 60s/120s (too early) and 300s/360s — exactly one
alert is emitted. -/
theorem alert_debounce_exactly_once_witness :
    (runAlerts ⟨"10.0.0.5", "TCP", some 22, none, some "ops", 5⟩ "ops"
      ⟨some 0, false, some ⟨"10.0.0.5", "TCP", some 22, none, some "ops", 5⟩⟩
      [.sweep 60 (some "Disconnected"),
       .change (some "Disconnected") (some "Partially Connected") 100,
       .sweep 120 (some "Partially Connected"),
       .sweep 300 (some "Disconnected"),
       .sweep 360 (some "Disconnected")]).2.length = 1 :=
  (alert_debounce_exactly_once
      ⟨"10.0.0.5", "TCP", some 22, none, some "ops", 5⟩ "ops" "ops" 0
      [.sweep 60 (some "Disconnected"),
       .change (some "Disconnected") (some "Partially Connected") 100,
       .sweep 120 (some "Partially Connected"),
       .sweep 300 (some "Disconnected"),
       .sweep 360 (some "Disconnected")]
      rfl (by decide) (by decide)).2.2.2
    ⟨300, some "Disconnected", by decide, by decide⟩

/-- The sweep body never changes the tracking record's timestamp or
the stored target. -/
lemma checkAlerts_preserves (s : EntityAlertState) (now : Nat)
    (cur : Option String) :
    (checkAlerts s now cur).1.last_disconnected = s.last_disconnected ∧
    (checkAlerts s now cur).1.tracked_target = s.tracked_target := by
  obtain ⟨ld, nf, tt⟩ := s
  cases ld with
  | none => cases tt <;> exact ⟨rfl, rfl⟩
  | some t0 =>
    cases tt with
    | none => exact ⟨rfl, rfl⟩
    | some tgt0 =>
      cases cur with
      | none => simp only [checkAlerts]; split_ifs <;> exact ⟨rfl, rfl⟩
      | some st => simp only [checkAlerts]; split_ifs <;> exact ⟨rfl, rfl⟩

/-- The sweep body sets the notified flag only when a record exists, a
target is stored, the delay has elapsed and the observed state is a
problem state. -/
lemma checkAlerts_fire (s : EntityAlertState) (now : Nat)
    (cur : Option String) (hnf : s.notified = false)
    (h : (checkAlerts s now cur).1.notified = true) :
    ∃ t0 tt st, s.last_disconnected = some t0 ∧ s.tracked_target = some tt ∧
      cur = some st ∧ st ∈ problem_states ∧
      tt.alert_delay * 60 ≤ now - t0 := by
  obtain ⟨ld, nf, tt⟩ := s
  subst hnf
  cases ld with
  | none =>
    cases tt <;> exact Bool.noConfusion h
  | some t0 =>
    cases tt with
    | none => exact Bool.noConfusion h
    | some tgt0 =>
      cases cur with
      | none =>
        exfalso
        have hno : (checkAlerts ⟨some t0, false, some tgt0⟩ now none).1.notified
            = false := by
          simp only [checkAlerts]
          split_ifs <;> rfl
        rw [hno] at h
        exact Bool.noConfusion h
      | some st =>
        by_cases hel : tgt0.alert_delay * 60 ≤ now - t0
        · by_cases hst : st ∈ problem_states
          · exact ⟨t0, tgt0, st, rfl, rfl, rfl, hst, hel⟩
          · exfalso
            have hno : (checkAlerts ⟨some t0, false, some tgt0⟩ now
                (some st)).1.notified = false := by
              simp only [checkAlerts]
              rw [if_neg (by simp), if_pos hel, if_neg hst]
            rw [hno] at h
            exact Bool.noConfusion h
        · exfalso
          have hno : (checkAlerts ⟨some t0, false, some tgt0⟩ now
              (some st)).1.notified = false := by
            simp only [checkAlerts]
            rw [if_neg (by simp), if_neg hel]
          rw [hno] at h
          exact Bool.noConfusion h

/-- C3: single-step invariant of the tracking record.
The timestamp is (re)set only by a state-change into a problem state
when no record exists or the old state was not a problem state; it is
cleared only by a state-change to "Connected"; the notified flag flips
to true only on a sweep with a record present, a stored target, the
delay elapsed and the current state still a problem state; and
clearing the record resets the notified flag to false. -/
theorem alert_tracking_invariant (tgt : Target) (g : String)
    (s : EntityAlertState) (e : AlertEvent) :
    ((alertStep tgt g s e).1.last_disconnected ≠ s.last_disconnected →
      ∀ t, (alertStep tgt g s e).1.last_disconnected = some t →
        ∃ o n, e = .change o (some n) t ∧ n ∈ problem_states ∧
          (s.last_disconnected = none ∨
            ∃ os, o = some os ∧ os ∉ problem_states)) ∧
    ((alertStep tgt g s e).1.last_disconnected = none →
      s.last_disconnected ≠ none →
        ∃ o t, e = .change o (some "Connected") t) ∧
    (s.notified = false → (alertStep tgt g s e).1.notified = true →
      ∃ t cur st t0 tt, e = .sweep t cur ∧ cur = some st ∧
        st ∈ problem_states ∧ s.last_disconnected = some t0 ∧
        s.tracked_target = some tt ∧ tt.alert_delay * 60 ≤ t - t0) ∧
    ((alertStep tgt g s e).1.last_disconnected = none →
      s.last_disconnected ≠ none → (alertStep tgt g s e).1.notified = false) := by
  cases e with
  | sweep t cur =>
    obtain ⟨hld, htt⟩ := checkAlerts_preserves s t cur
    have hld2 : (alertStep tgt g s (.sweep t cur)).1.last_disconnected =
        s.last_disconnected := hld
    refine ⟨?_, ?_, ?_, ?_⟩
    · intro hne _ _
      exact absurd hld2 hne
    · intro hnone hsome
      rw [hld2] at hnone
      exact absurd hnone hsome
    · intro hnf hfl
      obtain ⟨t0, tt, st, h1, h2, h3, h4, h5⟩ := checkAlerts_fire s t cur hnf hfl
      exact ⟨t, cur, st, t0, tt, rfl, h3, h4, h1, h2, h5⟩
    · intro hnone hsome
      rw [hld2] at hnone
      exact absurd hnone hsome
  | change o n t =>
    cases n with
    | none =>
      refine ⟨fun hne _ _ => absurd rfl hne, fun hnone hsome => ?_, ?_, ?_⟩
      · exact absurd hnone hsome
      · intro hnf hfl
        have hfl2 : s.notified = true := hfl
        rw [hnf] at hfl2
        exact Bool.noConfusion hfl2
      · intro hnone hsome
        exact absurd hnone hsome
    | some ns =>
      by_cases hns : ns ∈ problem_states
      · by_cases hcond : s.last_disconnected = none ∨ oldWasNonProblem o = true
        · have hred : alertStep tgt g s (.change o (some ns) t) =
            ({ s with last_disconnected := some t, notified := false }, []) := by
            simp only [alertStep, handleStateChange]
            rw [if_pos hns, if_pos hcond]
          rw [hred]
          dsimp only
          refine ⟨?_, ?_, ?_, ?_⟩
          · intro _ t' ht'
            injection ht' with ht'
            subst ht'
            refine ⟨o, ns, rfl, hns, ?_⟩
            rcases hcond with hl | hr
            · exact Or.inl hl
            · cases o with
              | none => simp [oldWasNonProblem] at hr
              | some os =>
                simp only [oldWasNonProblem, decide_eq_true_eq] at hr
                exact Or.inr ⟨os, rfl, hr⟩
          · intro hnone
            exact absurd hnone (by simp)
          · intro _ hfl
            exact Bool.noConfusion hfl
          · intro hnone
            exact absurd hnone (by simp)
        · have hred : alertStep tgt g s (.change o (some ns) t) = (s, []) := by
            simp only [alertStep, handleStateChange]
            rw [if_pos hns, if_neg hcond]
          rw [hred]
          dsimp only
          refine ⟨fun hne _ _ => absurd rfl hne,
            fun hnone hsome => absurd hnone hsome, ?_,
            fun hnone hsome => absurd hnone hsome⟩
          intro hnf hfl
          rw [hnf] at hfl
          exact Bool.noConfusion hfl
      · by_cases hcon : ns = "Connected"
        · subst hcon
          by_cases hsome : s.last_disconnected ≠ none
          · have hred : alertStep tgt g s (.change o (some "Connected") t) =
              ({ s with last_disconnected := none, notified := false },
               if s.notified then [⟨some g, recoveryMessage tgt⟩] else []) := by
              simp only [alertStep, handleStateChange]
              rw [if_neg hns]
              simp [hsome]
            rw [hred]
            dsimp only
            refine ⟨?_, fun _ _ => ⟨o, t, rfl⟩, ?_, fun _ _ => rfl⟩
            · intro _ t' ht'
              exact Option.noConfusion ht'
            · intro _ hfl
              exact Bool.noConfusion hfl
          · have hred : alertStep tgt g s (.change o (some "Connected") t) =
              (s, []) := by
              simp only [alertStep, handleStateChange]
              rw [if_neg hns]
              simp [hsome]
            rw [hred]
            dsimp only
            refine ⟨fun hne _ _ => absurd rfl hne,
              fun hnone h2 => absurd hnone h2, ?_,
              fun hnone h2 => absurd hnone h2⟩
            intro hnf hfl
            rw [hnf] at hfl
            exact Bool.noConfusion hfl
        · have hred : alertStep tgt g s (.change o (some ns) t) = (s, []) := by
            simp only [alertStep, handleStateChange]
            rw [if_neg hns, if_neg hcon]
          rw [hred]
          dsimp only
          refine ⟨fun hne _ _ => absurd rfl hne,
            fun hnone h2 => absurd hnone h2, ?_,
            fun hnone h2 => absurd hnone h2⟩
          intro hnf hfl
          rw [hnf] at hfl
          exact Bool.noConfusion hfl

/-- C3 witness: a sweep at 60s on a record armed at 0 for the sample
target (delay 1 minute) flips the notified flag, and the invariant's
third clause recovers the firing conditions. -/
theorem alert_tracking_invariant_witness :
    ∃ t cur st t0 tt,
      (AlertEvent.sweep 60 (some "Disconnected")) = AlertEvent.sweep t cur ∧
      cur = some st ∧ st ∈ problem_states ∧
      (⟨some 0, false, some sampleTarget⟩ : EntityAlertState).last_disconnected
        = some t0 ∧
      (⟨some 0, false, some sampleTarget⟩ : EntityAlertState).tracked_target
        = some tt ∧
      tt.alert_delay * 60 ≤ t - t0 :=
  (alert_tracking_invariant sampleTarget "ops"
    ⟨some 0, false, some sampleTarget⟩
    (.sweep 60 (some "Disconnected"))).2.2.1 rfl (by decide)

/-- C4: a transition to "Connected" while a tracking record exists
clears the record (timestamp removed, notified false, stored target
kept), sends the recovery message exactly when the notified flag was
set (so exactly one recovery message iff an alert had fired), and a
subsequent transition into a problem state re-arms a brand-new
debounce window at its own time. -/
theorem alert_recovery_clears_and_rearms (tgt : Target) (g : String)
    (s : EntityAlertState) (o : Option String) (t t0 : Nat)
    (hrec : s.last_disconnected = some t0) :
    (handleStateChange tgt g s o (some "Connected") t).1.last_disconnected
        = none ∧
    (handleStateChange tgt g s o (some "Connected") t).1.notified = false ∧
    (handleStateChange tgt g s o (some "Connected") t).1.tracked_target
        = s.tracked_target ∧
    (handleStateChange tgt g s o (some "Connected") t).2 =
      (if s.notified then [⟨some g, recoveryMessage tgt⟩] else []) ∧
    ((handleStateChange tgt g s o (some "Connected") t).2.length = 1 ↔
      s.notified = true) ∧
    (∀ (o2 : Option String) (ns : String) (t2 : Nat), ns ∈ problem_states →
      handleStateChange tgt g
          (handleStateChange tgt g s o (some "Connected") t).1 o2 (some ns) t2 =
        ({ (handleStateChange tgt g s o (some "Connected") t).1 with
            last_disconnected := some t2, notified := false }, [])) := by
  have hsome : s.last_disconnected ≠ none := by
    rw [hrec]
    exact Option.noConfusion
  have hred : handleStateChange tgt g s o (some "Connected") t =
      ({ s with last_disconnected := none, notified := false },
       if s.notified then [⟨some g, recoveryMessage tgt⟩] else []) := by
    simp only [handleStateChange]
    rw [if_neg (by decide : ¬ ("Connected" ∈ problem_states))]
    simp [hsome]
  rw [hred]
  refine ⟨rfl, rfl, rfl, rfl, ?_, ?_⟩
  · cases hnf : s.notified <;> simp
  · intro o2 ns t2 hns
    simp [handleStateChange, hns]

/-- C4 witness: a notified record recovering at t=90 emits exactly one
recovery message. -/
theorem alert_recovery_clears_and_rearms_witness :
    (handleStateChange sampleTarget "ops"
      ⟨some 0, true, some sampleTarget⟩
      (some "Disconnected") (some "Connected") 90).2.length = 1 :=
  (alert_recovery_clears_and_rearms sampleTarget "ops"
    ⟨some 0, true, some sampleTarget⟩
    (some "Disconnected") 90 0 rfl).2.2.2.2.1.mpr rfl

lemma runSweeps_cons (s : EntityAlertState) (tc : Nat × Option String)
    (tcs : List (Nat × Option String)) :
    runSweeps s (tc :: tcs) =
      ((runSweeps (checkAlerts s tc.1 tc.2).1 tcs).1,
       (checkAlerts s tc.1 tc.2).2 ++
         (runSweeps (checkAlerts s tc.1 tc.2).1 tcs).2) := rfl

/-- C7: a target with no alert group configured never has tracking set
up — `async_setup_alerts` returns without storing the target or
registering the state-change callback, so the entity's record stays in
its initial empty form — and the sweep timer, the only code path that
still runs, leaves the empty record unchanged and performs zero
notification calls on every tick. -/
theorem no_alert_group_zero_notifications (tgt : Target)
    (hg : tgt.alert_group = none) :
    (∀ (s : EntityAlertState) (initial : Option String) (now : Nat),
      setupAlerts tgt s initial now = (s, [])) ∧
    (∀ ticks : List (Nat × Option String),
      runSweeps ⟨none, false, none⟩ ticks = (⟨none, false, none⟩, [])) := by
  refine ⟨?_, ?_⟩
  · intro s initial now
    unfold setupAlerts
    rw [hg]
  · intro ticks
    induction ticks with
    | nil => rfl
    | cons tc tcs ih =>
      rw [runSweeps_cons]
      have hstep : checkAlerts ⟨none, false, none⟩ tc.1 tc.2 =
          (⟨none, false, none⟩, []) := rfl
      rw [hstep]
      simp [ih]

/-- C7 witness: a concrete group-less target is skipped by setup, and
two sweep ticks on the untracked entity change nothing and send
nothing. -/
theorem no_alert_group_zero_notifications_witness :
    setupAlerts ⟨"10.0.0.8", "TCP", some 443, none, none, 5⟩
      ⟨none, false, none⟩ (some "Disconnected") 0 = (⟨none, false, none⟩, []) ∧
    runSweeps ⟨none, false, none⟩
      [(60, some "Disconnected"), (120, some "Disconnected")] =
      (⟨none, false, none⟩, []) :=
  ⟨(no_alert_group_zero_notifications
      ⟨"10.0.0.8", "TCP", some 443, none, none, 5⟩ rfl).1 _ _ 0,
   (no_alert_group_zero_notifications
      ⟨"10.0.0.8", "TCP", some 443, none, none, 5⟩ rfl).2 _⟩

/-- C10 counterexample: in the end-to-end scenario (sample target,
record armed at t=0, sweep at t=60s observing "Disconnected"), the
single alert message is "❌ Device 10.0.0.5 (10.0.0.5) has been
disconnected for 1 minutes" — `_check_alerts` lowercases the status
(`state.state.lower()`), so the message contains "10.0.0.5" but does
NOT contain the reported status value "Disconnected". -/
theorem alert_message_lowercase_counterexample :
    (checkAlerts ⟨some 0, false, some sampleTarget⟩ 60 (some "Disconnected")).2 =
      [⟨some "ops",
        "❌ Device 10.0.0.5 (10.0.0.5) has been disconnected for 1 minutes"⟩] ∧
    ¬ ("Disconnected".data <:+:
      "❌ Device 10.0.0.5 (10.0.0.5) has been disconnected for 1 minutes".data) ∧
    ("10.0.0.5".data <:+:
      "❌ Device 10.0.0.5 (10.0.0.5) has been disconnected for 1 minutes".data) := by
  refine ⟨by decide, by decide, by decide⟩

/-- C10 amended: every alert message emitted by the sweep contains the
stored target's host string and the LOWERCASED form of the entity's
reported status value (the code applies `.lower()` to the status before
interpolation). -/
theorem alert_message_contains_host_and_lower_status
    (s : EntityAlertState) (now : Nat) (st : String) (n : Notification)
    (h : n ∈ (checkAlerts s now (some st)).2) :
    ∃ tt, s.tracked_target = some tt ∧
      tt.host.data <:+: n.message.data ∧
      (pyLower st).data <:+: n.message.data := by
  obtain ⟨ld, nf, tt⟩ := s
  cases ld with
  | none =>
    cases tt <;> simp only [checkAlerts] at h <;> cases h
  | some t0 =>
    cases tt with
    | none => simp only [checkAlerts] at h; cases h
    | some tgt0 =>
      simp only [checkAlerts] at h
      by_cases h1 : nf = true
      · rw [if_pos h1] at h
        simp at h
      · rw [if_neg h1] at h
        by_cases h2 : tgt0.alert_delay * 60 ≤ now - t0
        · rw [if_pos h2] at h
          by_cases h3 : st ∈ problem_states
          · rw [if_pos h3] at h
            simp only [List.mem_singleton] at h
            subst h
            refine ⟨tgt0, rfl, ?_, ?_⟩
            · refine ⟨("❌ Device " ++ tgt0.deviceName ++ " (").data,
                (") has been " ++ pyLower st ++ " for " ++
                  toString ((now - t0) / 60) ++ " minutes").data, ?_⟩
              simp only [alertMessage, String.data_append, List.append_assoc]
            · refine ⟨("❌ Device " ++ tgt0.deviceName ++ " (" ++ tgt0.host ++
                  ") has been ").data,
                (" for " ++ toString ((now - t0) / 60) ++ " minutes").data, ?_⟩
              simp only [alertMessage, String.data_append, List.append_assoc]
          · rw [if_neg h3] at h
            simp at h
        · rw [if_neg h2] at h
          simp at h

/-- C10 amended witness: the scenario's single message contains the
host and the lowercased status. -/
theorem alert_message_contains_witness :
    ∃ tt, (⟨some 0, false, some sampleTarget⟩ : EntityAlertState).tracked_target
        = some tt ∧
      tt.host.data <:+:
        (Notification.mk (some "ops")
          "❌ Device 10.0.0.5 (10.0.0.5) has been disconnected for 1 minutes").message.data ∧
      (pyLower "Disconnected").data <:+:
        (Notification.mk (some "ops")
          "❌ Device 10.0.0.5 (10.0.0.5) has been disconnected for 1 minutes").message.data :=
  alert_message_contains_host_and_lower_status
    ⟨some 0, false, some sampleTarget⟩ 60 "Disconnected"
    ⟨some "ops",
      "❌ Device 10.0.0.5 (10.0.0.5) has been disconnected for 1 minutes"⟩
    (by decide)

end ConnMon
